import Mathlib

/-!
Verification development for the job tracker of the image-generation
service (`src/lib/job-tracker.ts`).  The tracker is embedded shallowly:
JSON payloads are a small JS-value type, the stateful job record is a
Lean structure, one probe round-trip is a pure step function, and the
scheduler's per-job lifecycle is a fold over a list of ticks.
-/

namespace JobTracker

/-- A JavaScript value, restricted to what the tracker inspects in
provider payloads (undefined, null, booleans, numbers, strings, arrays,
objects as association lists). -/
inductive JVal where
  | jundefined
  | jnull
  | jbool (b : Bool)
  | jnum (n : Int)
  | jstr (s : String)
  | jarr (elems : List JVal)
  | jobj (fields : List (String × JVal))

/-- JS truthiness of a value (arrays and objects are always truthy). -/
def truthy : JVal → Bool
  | .jundefined => false
  | .jnull => false
  | .jbool b => b
  | .jnum n => n != 0
  | .jstr s => s != ""
  | .jarr _ => true
  | .jobj _ => true

/-- JS `typeof` (note `typeof null` is `"object"`, as are arrays). -/
def jsTypeof : JVal → String
  | .jundefined => "undefined"
  | .jnull => "object"
  | .jbool _ => "boolean"
  | .jnum _ => "number"
  | .jstr _ => "string"
  | .jarr _ => "object"
  | .jobj _ => "object"

/-- Optional-chaining property read `v?.k`: null/undefined yield
undefined, primitives and arrays have no such property, objects look the
key up. -/
def jsOptGet (v : JVal) (k : String) : JVal :=
  match v with
  | .jobj fields => (fields.lookup k).getD .jundefined
  | _ => .jundefined

/-- Plain property read `v.k`: throws a TypeError (modelled as `none`)
on null/undefined, otherwise as `jsOptGet`. -/
def jsGetProp (v : JVal) (k : String) : Option JVal :=
  match v with
  | .jundefined => none
  | .jnull => none
  | .jobj fields => some ((fields.lookup k).getD .jundefined)
  | _ => some .jundefined

/-- JS short-circuit `a || b`. -/
def jsOr (a b : JVal) : JVal :=
  if truthy a then a else b

/-- JS strict equality of a value with a string literal (`v === "s"`). -/
def isStrEq (v : JVal) (s : String) : Bool :=
  match v with
  | .jstr t => t == s
  | _ => false

/-- JS `Array.isArray`. -/
def isArray : JVal → Bool
  | .jarr _ => true
  | _ => false

/-- The element list of an array value, `[]` for anything else. -/
def asArr : JVal → List JVal
  | .jarr xs => xs
  | _ => []

/-- Template-literal rendering of a value appearing inside an array
(null and undefined render as the empty string there). -/
def jsElemToString : JVal → String
  | .jundefined => ""
  | .jnull => ""
  | .jbool b => if b then "true" else "false"
  | .jnum n => toString n
  | .jstr s => s
  | .jobj _ => "[object Object]"
  | .jarr xs => String.intercalate "," (xs.attach.map fun x => jsElemToString x.1)
termination_by v => sizeOf v
decreasing_by
  have hm := List.sizeOf_lt_of_mem x.2
  simp only [JVal.jarr.sizeOf_spec]
  omega

/-- Top-level template-literal rendering (`${v}` in a template string). -/
def jsToString : JVal → String
  | .jundefined => "undefined"
  | .jnull => "null"
  | v => jsElemToString v

/-! ## The job record and constants (`job-tracker.ts` lines 5-28) -/

def POLL_INTERVAL_MS : Nat := 20000
def MAX_POLL_ATTEMPTS : Nat := 30
def CALLBACK_2_DELAY_MS : Nat := 15000

inductive JobStatus where
  | polling
  | succeeded
  | failed
  | cancelled
deriving DecidableEq

/-- The per-job record (`interface Job`).  Timestamps are milliseconds
since the epoch; `images` keeps the raw JS values extracted from the
payload (the TS type says `string[]`, but the extraction can let any
truthy value through). -/
structure Job where
  requestId : String
  contactId : String
  userId : String
  status : JobStatus
  pollCount : Nat
  images : List JVal
  createdAt : Nat
  completedAt : Option Nat
  error : Option JVal

/-! ## Status Prober (`checkJobStatus`, lines 55-124) -/

/-- One observed probe round-trip: either the `fetch` call (or anything
else in the `try` body before the payload is inspected) threw, or an
HTTP response arrived with flag `ok` and a parsed body.  A body that
failed to parse as JSON becomes `jnull` (`response.json().catch(() => null)`). -/
inductive ProbeResult where
  | fetchError
  | response (ok : Bool) (payload : JVal)

/-- Line 71: `const status = payload?.status || payload?.state`. -/
def resolvedStatus (payload : JVal) : JVal :=
  jsOr (jsOptGet payload "status") (jsOptGet payload "state")

/-- One element of `payload.images` mapped as in lines 81-83:
`typeof img === "object" && img.url ? img.url : (typeof img === "string" ? img : "")`.
Reading `.url` off a null element throws (`none`); in the else branch a
value whose typeof was `"object"` is never `"string"`, so it maps to `""`. -/
def mapImageEntry (img : JVal) : Option JVal :=
  if jsTypeof img == "object" then
    (jsGetProp img "url").map fun u =>
      if truthy u then u
      else if jsTypeof img == "string" then img else .jstr ""
  else
    some (if jsTypeof img == "string" then img else .jstr "")

/-- `payload.images.map(...)` — the whole map throws if any element
read throws. -/
def mapImages : List JVal → Option (List JVal)
  | [] => some []
  | img :: rest =>
    match mapImageEntry img, mapImages rest with
    | some v, some vs => some (v :: vs)
    | _, _ => none

/-- Artifact extraction, lines 77-90.  The first branch's guard
`payload?.images && Array.isArray(payload.images)` holds exactly when
the field is an array (arrays are truthy); the later branches fire on
any truthy field value and produce `[]` when it is not an array.
`none` models a thrown TypeError from the map. -/
def extractImages (payload : JVal) : Option (List JVal) :=
  let imgs := jsOptGet payload "images"
  if truthy imgs && isArray imgs then
    (mapImages (asArr imgs)).map fun l => l.filter truthy
  else
    let iu := jsOptGet payload "image_urls"
    if truthy iu then some (if isArray iu then asArr iu else [])
    else
      let outs := jsOptGet payload "outputs"
      if truthy outs then some (if isArray outs then asArr outs else [])
      else
        let res := jsOptGet payload "result"
        if truthy res then some (if isArray res then asArr res else [])
        else some []

/-- Line 115. -/
def timeoutMsg : String := "Polling timeout - max attempts reached"

/-- Line 105: `payload?.error || payload?.message || (a template string
naming the state)`. -/
def providerErrMsg (payload status : JVal) : JVal :=
  jsOr (jsOptGet payload "error")
    (jsOr (jsOptGet payload "message") (.jstr ("Generation " ++ jsToString status)))

/-- One probe applied to a job (`checkJobStatus`), as a pure step.
Returns the updated job and whether `sendCallback` was invoked.  The
whole body sits in a `try`; a thrown error (fetch rejection, or the
TypeError from `extractImages`) lands in the `catch`, which only
increments `pollCount` (lines 120-123), exactly as a non-2xx response
does (lines 65-69). -/
def checkJobStatus (now : Nat) (pr : ProbeResult) (job : Job) : Job × Bool :=
  match pr with
  | .fetchError => ({ job with pollCount := job.pollCount + 1 }, false)
  | .response ok payload =>
    if !ok then
      ({ job with pollCount := job.pollCount + 1 }, false)
    else
      let status := resolvedStatus payload
      match extractImages payload with
      | none =>
        ({ job with pollCount := job.pollCount + 1 }, false)
      | some images =>
        if isStrEq status "completed" || isStrEq status "succeeded" then
          ({ job with status := .succeeded, images := images,
                      completedAt := some now }, true)
        else if isStrEq status "failed" || isStrEq status "error"
            || isStrEq status "cancelled" then
          ({ job with status := .failed,
                      error := some (providerErrMsg payload status),
                      completedAt := some now }, false)
        else
          let pc := job.pollCount + 1
          if MAX_POLL_ATTEMPTS ≤ pc then
            ({ job with pollCount := pc, status := .failed,
                        error := some (.jstr timeoutMsg),
                        completedAt := some now }, false)
          else
            ({ job with pollCount := pc }, false)

/-! ## Callback Dispatcher (`sendCallback`, lines 129-227) -/

/-- `encodeURIComponent` keeps ASCII alphanumerics and `-_.!~*'()`. -/
def uriUnreserved (c : Char) : Bool :=
  c.isAlphanum && c.toNat < 128
    || c == '-' || c == '_' || c == '.' || c == '!' || c == '~'
    || c == '*' || c == '\'' || c == '(' || c == ')'

def hexUpper (n : Nat) : Char :=
  if n < 10 then Char.ofNat (48 + n) else Char.ofNat (55 + n)

/-- UTF-8 bytes of one scalar value. -/
def utf8Bytes (c : Char) : List Nat :=
  let n := c.toNat
  if n < 0x80 then [n]
  else if n < 0x800 then
    [0xC0 ||| (n >>> 6), 0x80 ||| (n &&& 0x3F)]
  else if n < 0x10000 then
    [0xE0 ||| (n >>> 12), 0x80 ||| ((n >>> 6) &&& 0x3F), 0x80 ||| (n &&& 0x3F)]
  else
    [0xF0 ||| (n >>> 18), 0x80 ||| ((n >>> 12) &&& 0x3F),
     0x80 ||| ((n >>> 6) &&& 0x3F), 0x80 ||| (n &&& 0x3F)]

def pctEncodeByte (b : Nat) : String :=
  "%" ++ String.singleton (hexUpper (b / 16)) ++ String.singleton (hexUpper (b % 16))

def encodeURIComponent (s : String) : String :=
  String.join (s.data.map fun c =>
    if uriUnreserved c then String.singleton c
    else String.join ((utf8Bytes c).map pctEncodeByte))

/-- JS `x || "default"` on an environment variable (absent or empty
string falls back to the literal default). -/
def envOr (e : Option String) (d : String) : String :=
  match e with
  | some s => if s == "" then d else s
  | none => d

/-- The environment variables `sendCallback` reads. -/
structure CbEnv where
  chatgptBuilderToken : Option String
  customFieldId : Option String
  flowId : Option String

/-- Outcome of one outbound `fetch` as the dispatcher observes it:
2xx, non-2xx, or thrown network error. -/
inductive CallResult where
  | ok
  | httpError
  | netError

/-- One outbound HTTP call. -/
structure OutCall where
  url : String
  method : String
  body : Option String

/-- Observable event of a dispatcher run: an outbound call (with the
outcome the dispatcher saw, which it only logs) or the inter-call sleep. -/
inductive CbEvent where
  | call (c : OutCall) (r : CallResult)
  | delay (ms : Nat)

def accessTokenOf (env : CbEnv) : String :=
  envOr env.chatgptBuilderToken "1234372.w5LIIOK11XiUEEU4X6qnzjvwE7YXpQ0x"

/-- Lines 148-150: the custom-field ("store value") call. -/
def customFieldCall (env : CbEnv) (job : Job) (imageUrl : JVal) : OutCall :=
  { url := "https://app.chatgptbuilder.io/api/contacts/" ++ job.contactId
      ++ "/custom_fields/" ++ envOr env.customFieldId "871218"
    method := "POST"
    body := some ("value=" ++ encodeURIComponent (jsToString imageUrl)) }

/-- Lines 192-193: the flow-trigger call (empty body). -/
def flowTriggerCall (env : CbEnv) (job : Job) : OutCall :=
  { url := "https://app.chatgptbuilder.io/api/contacts/" ++ job.contactId
      ++ "/send/" ++ envOr env.flowId "1760629479392"
    method := "POST"
    body := none }

/-- `sendCallback` as the sequence of events it emits.  `r1`/`r2` are
the outcomes of the two outbound calls; both calls sit in their own
`try`/`catch` whose failure path only logs, so the emitted sequence
does not depend on them.  With no images the function returns at the
top (lines 130-133) before any call. -/
def sendCallback (env : CbEnv) (r1 r2 : CallResult) (job : Job) : List CbEvent :=
  match job.images with
  | [] => []
  | imageUrl :: _ =>
    [ .call (customFieldCall env job imageUrl) r1,
      .delay CALLBACK_2_DELAY_MS,
      .call (flowTriggerCall env job) r2 ]

/-! ## Job Store and scheduler (`jobs` map, `pollAllJobs`, `addJob`) -/

/-- The in-memory `Map<string, Job>` as an insertion-ordered
association list. -/
abbrev Store := List (String × Job)

/-- `jobs.set(k, v)`: replace in place if the key exists, else append. -/
def mapSet (m : Store) (k : String) (v : Job) : Store :=
  if m.any (fun p => p.1 == k) then
    m.map (fun p => if p.1 == k then (k, v) else p)
  else m ++ [(k, v)]

/-- `jobs.get(k)`. -/
def mapGet (m : Store) (k : String) : Option Job :=
  (m.find? (fun p => p.1 == k)).map Prod.snd

/-- The fresh record `addJob` builds (lines 270-278). -/
def freshJob (now : Nat) (requestId contactId userId : String) : Job :=
  { requestId := requestId
    contactId := contactId
    userId := userId
    status := .polling
    pollCount := 0
    images := []
    createdAt := now
    completedAt := none
    error := none }

/-- `addJob` on the store: builds the fresh record and `jobs.set`s it.
(The `startPolling` and delayed-first-check side effects schedule
ticks; ticks are modelled separately by `tickJob`/`runJob`.) -/
def addJob (now : Nat) (m : Store) (requestId contactId userId : String) :
    Store × Job :=
  let job := freshJob now requestId contactId userId
  (mapSet m requestId job, job)

/-- `getJob` (line 300): a pure read. -/
def getJob (m : Store) (requestId : String) : Option Job :=
  mapGet m requestId

/-- Retention window of the cleanup loop: one hour (line 245). -/
def RETENTION_MS : Nat := 60 * 60 * 1000

/-- The cleanup loop of `pollAllJobs` (lines 244-251): delete entries
whose `completedAt` exists and is strictly older than `now` minus the
retention window. -/
def evictOld (now : Nat) (m : Store) : Store :=
  m.filter fun p =>
    match p.2.completedAt with
    | some t => !(t < now - RETENTION_MS)
    | none => true

/-- One scheduler tick applied to one job: `pollAllJobs` filters on
`status === "polling"` before calling `checkJobStatus` (line 233), and
the delayed first check after `addJob` carries the same guard
(line 289), so a non-polling job is never probed. -/
def tickJob (now : Nat) (pr : ProbeResult) (job : Job) : Job × Bool :=
  if job.status = JobStatus.polling then checkJobStatus now pr job
  else (job, false)

/-- A job's lifecycle over a sequence of ticks, each supplying the wall
clock and the probe outcome for that tick; also counts how many times
`sendCallback` was invoked. -/
def runJob : List (Nat × ProbeResult) → Job → Job × Nat
  | [], job => (job, 0)
  | t :: rest, job =>
    let r := tickJob t.1 t.2 job
    let r2 := runJob rest r.1
    (r2.1, (if r.2 then 1 else 0) + r2.2)

/-- One full `pollAllJobs` pass over the store: probe every polling job
(`probe` gives each request id's outcome this tick), then run the
cleanup loop.  When no job is polling the function returns before the
cleanup (lines 235-237).  Also returns the ids for which `sendCallback`
was invoked. -/
def pollAllJobs (now : Nat) (probe : String → ProbeResult) (m : Store) :
    Store × List String :=
  let pending := m.filter fun p => p.2.status = JobStatus.polling
  if pending.isEmpty then (m, [])
  else
    let stepped := m.map fun p =>
      if p.2.status = JobStatus.polling then
        let r := checkJobStatus now (probe p.1) p.2
        ((p.1, r.1), if r.2 then some p.1 else none)
      else (p, none)
    (evictOld now (stepped.map Prod.fst), stepped.filterMap Prod.snd)

/-- A probe outcome that takes the still-processing branch of
`checkJobStatus` (lines 108-119): a 2xx response whose extraction does
not throw and whose resolved status matches neither the success nor the
failure spellings. -/
def stillProcessingOk : ProbeResult → Bool
  | .response true p =>
      (extractImages p).isSome
        && !(isStrEq (resolvedStatus p) "completed" || isStrEq (resolvedStatus p) "succeeded")
        && !(isStrEq (resolvedStatus p) "failed" || isStrEq (resolvedStatus p) "error"
             || isStrEq (resolvedStatus p) "cancelled")
  | _ => false

/-! ## Helper lemmas -/

theorem checkJobStatus_cb_succeeded (now : Nat) (pr : ProbeResult) (j : Job)
    (h : (checkJobStatus now pr j).2 = true) :
    (checkJobStatus now pr j).1.status = JobStatus.succeeded := by
  revert h
  unfold checkJobStatus
  rcases pr with _ | ⟨ok, payload⟩
  · simp
  · rcases ok
    · simp
    · rcases hext : extractImages payload with _ | imgs <;> simp only [hext]
      · simp
      · (repeat' split) <;> simp

theorem tickJob_cb (now : Nat) (pr : ProbeResult) (j : Job)
    (h : (tickJob now pr j).2 = true) :
    j.status = JobStatus.polling ∧ (tickJob now pr j).1.status = JobStatus.succeeded := by
  revert h
  unfold tickJob
  split
  · intro h
    exact ⟨by assumption, checkJobStatus_cb_succeeded _ _ _ h⟩
  · intro h
    simp at h

theorem runJob_settled (ts : List (Nat × ProbeResult)) (j : Job)
    (h : j.status ≠ JobStatus.polling) : runJob ts j = (j, 0) := by
  induction ts with
  | nil => rfl
  | cons t rest ih =>
    unfold runJob tickJob
    rw [if_neg h]
    simp [ih]

theorem runJob_cb_le_one (ts : List (Nat × ProbeResult)) (j : Job) :
    (runJob ts j).2 ≤ 1 := by
  induction ts generalizing j with
  | nil => simp [runJob]
  | cons t rest ih =>
    unfold runJob
    by_cases hb : (tickJob t.1 t.2 j).2 = true
    · have hs := (tickJob_cb t.1 t.2 j hb).2
      have hset := runJob_settled rest (tickJob t.1 t.2 j).1 (by rw [hs]; simp)
      simp [hb, hset]
    · simp only [Bool.not_eq_true] at hb
      simp [hb]
      exact ih _

theorem checkJobStatus_still (now : Nat) (pr : ProbeResult) (j : Job)
    (h : stillProcessingOk pr = true) :
    checkJobStatus now pr j =
      (if MAX_POLL_ATTEMPTS ≤ j.pollCount + 1 then
        ({ j with
            pollCount := j.pollCount + 1, status := JobStatus.failed,
            error := some (.jstr timeoutMsg), completedAt := some now }, false)
       else ({ j with pollCount := j.pollCount + 1 }, false)) := by
  rcases pr with _ | ⟨ok, p⟩
  · simp [stillProcessingOk] at h
  · rcases ok
    · simp [stillProcessingOk] at h
    · simp only [stillProcessingOk, Bool.and_eq_true, Bool.not_eq_true'] at h
      obtain ⟨⟨hsome, hns⟩, hnf⟩ := h
      rcases hext : extractImages p with _ | imgs
      · rw [hext] at hsome
        simp at hsome
      · unfold checkJobStatus
        simp [hext, hns, hnf]

theorem runJob_still_timeout (ts : List (Nat × ProbeResult)) (j : Job)
    (hpoll : j.status = JobStatus.polling)
    (hlt : j.pollCount < MAX_POLL_ATTEMPTS)
    (hall : ∀ t ∈ ts, stillProcessingOk t.2 = true)
    (hlen : MAX_POLL_ATTEMPTS ≤ j.pollCount + ts.length) :
    (runJob ts j).1.status = JobStatus.failed
    ∧ (runJob ts j).1.error = some (.jstr timeoutMsg) := by
  induction ts generalizing j with
  | nil =>
    exfalso
    simp at hlen
    omega
  | cons t rest ih =>
    have hstep := checkJobStatus_still t.1 t.2 j (hall t (by simp))
    unfold runJob tickJob
    rw [if_pos hpoll, hstep]
    by_cases hc : MAX_POLL_ATTEMPTS ≤ j.pollCount + 1
    · rw [if_pos hc]
      have hset := runJob_settled rest
        ({ j with
            pollCount := j.pollCount + 1, status := JobStatus.failed,
            error := some (.jstr timeoutMsg), completedAt := some t.1 }) (by simp)
      simp [hset]
    · rw [if_neg hc]
      simp only [List.length_cons] at hlen
      exact ih ({ j with pollCount := j.pollCount + 1 }) hpoll
        (by show j.pollCount + 1 < MAX_POLL_ATTEMPTS; omega)
        (fun x hx => hall x (by simp [hx]))
        (by show MAX_POLL_ATTEMPTS ≤ j.pollCount + 1 + rest.length; omega)

set_option maxRecDepth 10000 in
/-- C1 is refuted on the code: a job whose every probe outcome is a
transient call failure (here: a thrown fetch error, one of the
spec's `StillProcessing` cases) is still in `polling` after `MAX`
consecutive such ticks, because the non-2xx and thrown-error paths
increment `pollCount` without ever running the timeout check. -/
theorem c1_counterexample :
    (runJob (List.replicate 30 (0, ProbeResult.fetchError))
        (freshJob 0 "job-1" "c-1" "u-1")).1.status = JobStatus.polling
    ∧ (runJob (List.replicate 30 (0, ProbeResult.fetchError))
        (freshJob 0 "job-1" "c-1" "u-1")).1.pollCount = 30 := by
  constructor <;> rfl

/-- C1 (amended): if every probe outcome takes the still-processing
branch — a 2xx response whose artifact extraction does not throw and
whose resolved status matches no terminal spelling, which includes a
2xx response with an unparseable body (`payload` null resolves to a
non-terminal undefined status) — then after `MAX` consecutive such
ticks the job is `failed` with the timeout reason (whose text mentions
"timeout"), and is not in `polling`.  Probe outcomes that throw (fetch
error, or the extraction TypeError) or return non-2xx increment
`pollCount` without ever reaching the timeout check, so a job that
receives only those outcomes stays in `polling`. -/
theorem c1_amended_timeout (ts : List (Nat × ProbeResult)) (now : Nat)
    (rid cid uid : String)
    (hall : ∀ t ∈ ts, stillProcessingOk t.2 = true)
    (hlen : MAX_POLL_ATTEMPTS ≤ ts.length) :
    (runJob ts (freshJob now rid cid uid)).1.status = JobStatus.failed
    ∧ (runJob ts (freshJob now rid cid uid)).1.error = some (.jstr timeoutMsg)
    ∧ (runJob ts (freshJob now rid cid uid)).1.status ≠ JobStatus.polling
    ∧ ∃ a b, timeoutMsg = a ++ "timeout" ++ b := by
  have h := runJob_still_timeout ts (freshJob now rid cid uid) rfl
    (by show (0:Nat) < MAX_POLL_ATTEMPTS; decide) hall
    (by show MAX_POLL_ATTEMPTS ≤ 0 + ts.length; omega)
  refine ⟨h.1, h.2, by rw [h.1]; simp, "Polling ", " - max attempts reached", rfl⟩

set_option maxRecDepth 10000 in
theorem c1_witness :
    (runJob (List.replicate 30 (0, ProbeResult.response true
        (JVal.jobj [("status", JVal.jstr "queued")])))
      (freshJob 0 "job-1" "c-1" "u-1")).1.status = JobStatus.failed :=
  (c1_amended_timeout _ 0 "job-1" "c-1" "u-1" (by decide) (by decide)).1

theorem checkJobStatus_images_inv (now : Nat) (pr : ProbeResult) (j : Job)
    (hemp : j.images = []) (h : (checkJobStatus now pr j).1.images ≠ []) :
    (checkJobStatus now pr j).1.status = JobStatus.succeeded := by
  revert h
  unfold checkJobStatus
  rcases pr with _ | ⟨ok, payload⟩
  · simp [hemp]
  · rcases ok
    · simp [hemp]
    · rcases hext : extractImages payload with _ | imgs <;> simp only [hext]
      · simp [hemp]
      · (repeat' split) <;> simp [hemp]

theorem tickJob_images_inv (now : Nat) (pr : ProbeResult) (j : Job)
    (hinv : j.images ≠ [] → j.status = JobStatus.succeeded)
    (h : (tickJob now pr j).1.images ≠ []) :
    (tickJob now pr j).1.status = JobStatus.succeeded := by
  revert h
  unfold tickJob
  split
  · rename_i hpoll
    have hemp : j.images = [] := by
      by_contra hne
      rw [hinv hne] at hpoll
      exact JobStatus.noConfusion hpoll
    exact checkJobStatus_images_inv now pr j hemp
  · exact hinv

theorem runJob_images_inv (ts : List (Nat × ProbeResult)) (j : Job)
    (hinv : j.images ≠ [] → j.status = JobStatus.succeeded)
    (h : (runJob ts j).1.images ≠ []) :
    (runJob ts j).1.status = JobStatus.succeeded := by
  induction ts generalizing j with
  | nil => exact hinv h
  | cons t rest ih =>
    unfold runJob at h ⊢
    exact ih _ (tickJob_images_inv t.1 t.2 j hinv) h

/-- C2 is refuted on the code: from registration, a single tick whose
probe is a 2xx "completed" response carrying no recognized artifact
field ends the job in `succeeded` with empty `results`, so "`results`
non-empty iff `succeeded`" fails right-to-left. -/
theorem c2_counterexample :
    (runJob [(5, ProbeResult.response true (JVal.jobj [("status", JVal.jstr "completed")]))]
        (freshJob 0 "job-1" "c-1" "u-1")).1.status = JobStatus.succeeded
    ∧ (runJob [(5, ProbeResult.response true (JVal.jobj [("status", JVal.jstr "completed")]))]
        (freshJob 0 "job-1" "c-1" "u-1")).1.images = [] := by
  constructor <;> rfl

/-- C2 (amended): for every job reachable from registration through any
sequence of tick steps, non-empty `results` implies `state = succeeded`;
the converse direction fails (see the counterexample). -/
theorem c2_amended_nonempty_implies_succeeded (ts : List (Nat × ProbeResult))
    (now : Nat) (rid cid uid : String)
    (h : (runJob ts (freshJob now rid cid uid)).1.images ≠ []) :
    (runJob ts (freshJob now rid cid uid)).1.status = JobStatus.succeeded :=
  runJob_images_inv ts (freshJob now rid cid uid) (fun hne => absurd rfl hne) h

theorem c2_witness :
    (runJob [(3, ProbeResult.response true (JVal.jobj
        [("status", JVal.jstr "completed"), ("image_urls", JVal.jarr [JVal.jstr "https://x/out.png"])]))]
      (freshJob 0 "job-1" "c-1" "u-1")).1.status = JobStatus.succeeded :=
  c2_amended_nonempty_implies_succeeded _ 0 "job-1" "c-1" "u-1"
    (by rw [show (runJob [(3, ProbeResult.response true (JVal.jobj
        [("status", JVal.jstr "completed"), ("image_urls", JVal.jarr [JVal.jstr "https://x/out.png"])]))]
      (freshJob 0 "job-1" "c-1" "u-1")).1.images = [JVal.jstr "https://x/out.png"] from rfl]
        simp)

/-- C3: over any sequence of ticks, `sendCallback` is invoked at most
once per job, and an invocation happens only on a tick that takes the
job from `polling` to `succeeded` — a failed, timed-out or
already-succeeded job is never probed again (the polling filter), so it
never receives a later invocation, and reads (`getJob`) invoke nothing. -/
theorem c3_dispatch_at_most_once :
    (∀ (ts : List (Nat × ProbeResult)) (j : Job), (runJob ts j).2 ≤ 1)
    ∧ (∀ (now : Nat) (pr : ProbeResult) (j : Job),
        (tickJob now pr j).2 = true →
        j.status = JobStatus.polling
        ∧ (tickJob now pr j).1.status = JobStatus.succeeded) :=
  ⟨fun ts j => runJob_cb_le_one ts j, fun now pr j h => tickJob_cb now pr j h⟩

/-- Modelled from the claim's words (C4), for comparison with
`extractImages`: the four response shapes checked in order, where the
first shape that is present AND NON-EMPTY wins, and the list is empty
when none match.  The location of one shape-(a) entry follows the
source's entry mapping (an object with a truthy `url` field contributes
that field; a string entry is its own location). -/
def extractImagesClaim (payload : JVal) : List JVal :=
  let a := (asArr (jsOptGet payload "images")).filterMap fun img =>
    match img with
    | .jobj _ => if truthy (jsOptGet img "url") then some (jsOptGet img "url") else none
    | .jstr s => some (.jstr s)
    | _ => none
  let b := asArr (jsOptGet payload "image_urls")
  let c := asArr (jsOptGet payload "outputs")
  let d := asArr (jsOptGet payload "result")
  if !a.isEmpty then a
  else if !b.isEmpty then b
  else if !c.isEmpty then c
  else if !d.isEmpty then d
  else []

def c4Payload : JVal :=
  .jobj [("images", .jarr []), ("image_urls", .jarr [.jstr "https://x/out.png"])]

/-- C4 is refuted on the code: a payload whose `images` field is a
present but EMPTY array shadows a later, non-empty shape — the code
extracts `[]` where the claim's "first present and non-empty shape
wins" rule extracts the `image_urls` entry. -/
theorem c4_counterexample :
    extractImages c4Payload = some []
    ∧ extractImagesClaim c4Payload = [JVal.jstr "https://x/out.png"] :=
  ⟨rfl, rfl⟩

/-- C4 (amended), modelled from the amended words: the first shape that
is PRESENT wins regardless of emptiness — shape (a) applies whenever
the `images` field is an array (entries mapped to locations, dropping
falsy ones, throwing on a null entry); otherwise a later shape applies
on any truthy field value, contributing its elements when it is an
array and nothing otherwise; empty when no shape matches. -/
def extractImagesClaimAmended (payload : JVal) : Option (List JVal) :=
  if isArray (jsOptGet payload "images") then
    (mapImages (asArr (jsOptGet payload "images"))).map fun l => l.filter truthy
  else if truthy (jsOptGet payload "image_urls") then
    some (asArr (jsOptGet payload "image_urls"))
  else if truthy (jsOptGet payload "outputs") then
    some (asArr (jsOptGet payload "outputs"))
  else if truthy (jsOptGet payload "result") then
    some (asArr (jsOptGet payload "result"))
  else some []

/-- C4 (amended): the source's extraction agrees, on every payload,
with the amended first-present-shape-wins rule. -/
theorem c4_amended_first_present_shape (payload : JVal) :
    extractImages payload = extractImagesClaimAmended payload := by
  unfold extractImages extractImagesClaimAmended
  have harr : ∀ v : JVal, (if isArray v then asArr v else []) = asArr v := by
    intro v
    cases v <;> rfl
  have htru : ∀ v : JVal, isArray v = true → truthy v = true := by
    intro v hv
    cases v <;> simp_all [isArray, truthy]
  by_cases hA : isArray (jsOptGet payload "images") = true
  · simp [hA, htru _ hA]
  · simp only [Bool.not_eq_true] at hA
    simp [hA, harr]

/-- C5: the dispatcher performs outbound calls only when `results` is
non-empty, and at a succeeded transition whose extracted artifact list
is empty the job still ends `succeeded` with empty `results` while the
dispatcher emits no outbound call at all. -/
theorem c5_empty_results_skip_dispatch :
    (∀ (env : CbEnv) (r1 r2 : CallResult) (job : Job),
        job.images = [] → sendCallback env r1 r2 job = [])
    ∧ (∀ (env : CbEnv) (r1 r2 : CallResult) (job : Job),
        sendCallback env r1 r2 job ≠ [] → job.images ≠ [])
    ∧ (∀ (now : Nat) (payload : JVal) (j : Job),
        j.status = JobStatus.polling →
        extractImages payload = some [] →
        (isStrEq (resolvedStatus payload) "completed"
          || isStrEq (resolvedStatus payload) "succeeded") = true →
        (tickJob now (.response true payload) j).1.status = JobStatus.succeeded
        ∧ (tickJob now (.response true payload) j).1.images = []
        ∧ ∀ (env : CbEnv) (r1 r2 : CallResult),
            sendCallback env r1 r2 (tickJob now (.response true payload) j).1 = []) := by
  refine ⟨?_, ?_, ?_⟩
  · intro env r1 r2 job h
    simp [sendCallback, h]
  · intro env r1 r2 job hne
    intro hemp
    exact hne (by simp [sendCallback, hemp])
  · intro now payload j hpoll hext hcond
    unfold tickJob
    rw [if_pos hpoll]
    unfold checkJobStatus
    simp only [hext, Bool.not_true, hcond]
    simp [sendCallback]

/-- C6: for a dispatched job (non-empty `results`), the dispatcher
emits exactly two outbound calls in fixed order — the store-value
(custom field) call first, then, after the mandatory fixed delay, the
flow-trigger call — independent of either call's outcome: a failing
step is not retried (each call occurs exactly once) and does not abort
the remaining step. -/
theorem c6_dispatch_two_calls_in_order (env : CbEnv) (r1 r2 : CallResult)
    (job : Job) (u : JVal) (rest : List JVal) (h : job.images = u :: rest) :
    sendCallback env r1 r2 job =
      [ CbEvent.call (customFieldCall env job u) r1,
        CbEvent.delay CALLBACK_2_DELAY_MS,
        CbEvent.call (flowTriggerCall env job) r2 ] := by
  unfold sendCallback
  rw [h]

def c6JobW : Job :=
  { freshJob 0 "job-1" "c-1" "u-1" with
      status := JobStatus.succeeded
      images := [JVal.jstr "https://x/out.png"] }

theorem c6_witness :
    sendCallback ⟨none, none, none⟩ CallResult.httpError CallResult.netError c6JobW =
      [ CbEvent.call (customFieldCall ⟨none, none, none⟩ c6JobW
          (JVal.jstr "https://x/out.png")) CallResult.httpError,
        CbEvent.delay CALLBACK_2_DELAY_MS,
        CbEvent.call (flowTriggerCall ⟨none, none, none⟩ c6JobW) CallResult.netError ] :=
  c6_dispatch_two_calls_in_order ⟨none, none, none⟩ CallResult.httpError
    CallResult.netError c6JobW (JVal.jstr "https://x/out.png") [] rfl

/-- C7: the cleanup pass removes exactly those entries whose
`completedAt` is set and strictly older than the retention window at
eviction time; an entry exactly at the boundary, or without
`completedAt`, survives in the store. -/
theorem c7_eviction_membership (now : Nat) (m : Store) (k : String) (j : Job) :
    (k, j) ∈ evictOld now m ↔
      ((k, j) ∈ m ∧ ∀ t, j.completedAt = some t → now - RETENTION_MS ≤ t) := by
  unfold evictOld
  rw [List.mem_filter]
  constructor
  · rintro ⟨hm, hp⟩
    refine ⟨hm, ?_⟩
    intro t ht
    rw [ht] at hp
    simpa using hp
  · rintro ⟨hm, hp⟩
    refine ⟨hm, ?_⟩
    rcases hcc : j.completedAt with _ | t
    · simp [hcc]
    · simpa [hcc] using hp t hcc

def c8Payload : JVal :=
  .jobj [("status", .jstr "completed"), ("images", .jarr [.jnull])]

/-- C8 is refuted on the code: a 2xx response whose status is
"completed" but whose `images` array contains a null entry is NOT
classified as terminal success — reading the entry's `url` field throws
a TypeError before the status check, the `catch` runs, and the probe is
treated as transient (only `pollCount` moves). -/
theorem c8_counterexample :
    (checkJobStatus 5 (ProbeResult.response true c8Payload)
        (freshJob 0 "job-1" "c-1" "u-1")).1.status = JobStatus.polling
    ∧ (checkJobStatus 5 (ProbeResult.response true c8Payload)
        (freshJob 0 "job-1" "c-1" "u-1")).1.pollCount = 1 :=
  ⟨rfl, rfl⟩

/-- C8 (amended): for a polling job, a 2xx response is classified as
terminal success iff artifact extraction does not throw AND the status
resolved from the `status` key (falling back to the `state` key) equals
"completed" or "succeeded" — both spellings yielding the same
`succeeded` outcome. -/
theorem c8_amended_success_classification (now : Nat) (payload : JVal) (j : Job)
    (hpoll : j.status = JobStatus.polling) :
    (checkJobStatus now (ProbeResult.response true payload) j).1.status
        = JobStatus.succeeded
      ↔ ((extractImages payload).isSome = true
          ∧ (isStrEq (resolvedStatus payload) "completed" = true
             ∨ isStrEq (resolvedStatus payload) "succeeded" = true)) := by
  unfold checkJobStatus
  rcases hext : extractImages payload with _ | imgs <;> simp only [hext, Bool.not_true]
  · simp [hpoll]
  · (repeat' split) <;> simp_all [hpoll]

def c8PayloadW : JVal := .jobj [("state", .jstr "succeeded")]

theorem c8_witness :
    (checkJobStatus 3 (ProbeResult.response true c8PayloadW)
        (freshJob 0 "job-1" "c-1" "u-1")).1.status = JobStatus.succeeded :=
  (c8_amended_success_classification 3 c8PayloadW (freshJob 0 "job-1" "c-1" "u-1")
      rfl).mpr ⟨rfl, Or.inr rfl⟩

theorem find_map_replace (m : Store) (k : String) (v : Job)
    (h : m.any (fun p => p.1 == k) = true) :
    (m.map (fun p => if p.1 == k then (k, v) else p)).find? (fun p => p.1 == k)
      = some (k, v) := by
  induction m with
  | nil => simp at h
  | cons p m ih =>
    by_cases hp : p.1 == k
    · rw [List.map_cons, if_pos hp, List.find?_cons_of_pos _ (by simp)]
    · simp only [List.any_cons, hp, Bool.false_or] at h
      simp only [List.map_cons, hp, if_neg]
      rw [List.find?_cons_of_neg _ (by simpa using hp)]
      exact ih h

theorem find_append_right (m l : Store) (pred : String × Job → Bool)
    (h : m.find? pred = none) : (m ++ l).find? pred = l.find? pred := by
  induction m with
  | nil => rfl
  | cons p m ih =>
    rw [List.find?_eq_none] at h
    have hp : ¬ pred p = true := h p (by simp)
    rw [List.cons_append, List.find?_cons_of_neg _ hp]
    exact ih (List.find?_eq_none.mpr fun x hx => h x (by simp [hx]))

theorem mapGet_mapSet (m : Store) (k : String) (v : Job) :
    mapGet (mapSet m k v) k = some v := by
  unfold mapGet mapSet
  by_cases h : m.any (fun p => p.1 == k) = true
  · rw [if_pos h, find_map_replace m k v h]
    rfl
  · rw [if_neg h]
    have hnone : m.find? (fun p => p.1 == k) = none := by
      rw [List.find?_eq_none]
      intro p hp hpred
      exact h (List.any_eq_true.mpr ⟨p, hp, hpred⟩)
    rw [find_append_right _ _ _ hnone]
    simp

/-- C9: registering an id already present in the store silently
overwrites the existing record — whatever its state, including a
settled one — with a fresh job in `polling`, `pollAttempts` 0, empty
`results` and no `settledAt`; duplicates are not rejected. -/
theorem c9_addJob_overwrites (m : Store) (now : Nat) (rid cid uid : String)
    (old : Job) (_hold : mapGet m rid = some old) :
    getJob (addJob now m rid cid uid).1 rid = some (freshJob now rid cid uid)
    ∧ (freshJob now rid cid uid).status = JobStatus.polling
    ∧ (freshJob now rid cid uid).pollCount = 0
    ∧ (freshJob now rid cid uid).images = []
    ∧ (freshJob now rid cid uid).completedAt = none := by
  refine ⟨?_, rfl, rfl, rfl, rfl⟩
  show mapGet (mapSet m rid (freshJob now rid cid uid)) rid
    = some (freshJob now rid cid uid)
  exact mapGet_mapSet m rid (freshJob now rid cid uid)

def c9OldJob : Job :=
  { freshJob 0 "job-1" "c-1" "u-1" with
      status := JobStatus.succeeded
      images := [JVal.jstr "https://x/old.png"]
      completedAt := some 99 }

theorem c9_witness :
    getJob (addJob 7 [("job-1", c9OldJob)] "job-1" "c-2" "u-2").1 "job-1"
      = some (freshJob 7 "job-1" "c-2" "u-2") :=
  (c9_addJob_overwrites [("job-1", c9OldJob)] 7 "job-1" "c-2" "u-2" c9OldJob rfl).1

/-- A probe outcome handled purely by the increment-only paths of
`checkJobStatus`: a non-2xx response (lines 65-69) or a thrown error —
fetch rejection, or the TypeError raised during artifact extraction —
caught at lines 120-123. -/
def transientProbe : ProbeResult → Bool
  | .fetchError => true
  | .response ok p => !ok || (extractImages p).isNone

def c10JobW : Job := { freshJob 0 "job-1" "c-1" "u-1" with pollCount := 29 }

/-- C10 is refuted on the code: a JSON parse failure on a 2xx response
(`payload` becomes null) is routed to the still-processing branch, not
the increment-only paths, so at `pollCount` 29 it flips `status` to
`failed` and sets `completedAt` — more than just `pollAttempts`
changes. -/
theorem c10_counterexample :
    (checkJobStatus 7 (ProbeResult.response true JVal.jnull) c10JobW).1.status
        = JobStatus.failed
    ∧ (checkJobStatus 7 (ProbeResult.response true JVal.jnull) c10JobW).1.completedAt
        = some 7
    ∧ c10JobW.status = JobStatus.polling
    ∧ c10JobW.completedAt = none :=
  ⟨rfl, rfl, rfl, rfl⟩

/-- C10 (amended): on a non-2xx response or a thrown error (fetch
failure, or the extraction TypeError), the probe changes exactly
`pollCount`, incremented by one, and invokes no callback; a JSON parse
failure on a 2xx response is instead treated as still-processing — it
also increments `pollCount` only, except when the incremented count
reaches `MAX`, where it additionally fails the job with the timeout
reason and sets `completedAt`. -/
theorem c10_amended_transient_frame (now : Nat) (pr : ProbeResult) (j : Job) :
    (transientProbe pr = true →
      checkJobStatus now pr j = ({ j with pollCount := j.pollCount + 1 }, false))
    ∧ checkJobStatus now (ProbeResult.response true JVal.jnull) j =
        (if MAX_POLL_ATTEMPTS ≤ j.pollCount + 1 then
          ({ j with
              pollCount := j.pollCount + 1, status := JobStatus.failed,
              error := some (.jstr timeoutMsg), completedAt := some now }, false)
         else ({ j with pollCount := j.pollCount + 1 }, false)) := by
  constructor
  · intro h
    rcases pr with _ | ⟨ok, p⟩
    · rfl
    · rcases ok
      · rfl
      · simp only [transientProbe, Bool.not_true, Bool.false_or] at h
        rcases hext : extractImages p with _ | imgs
        · unfold checkJobStatus
          simp [hext]
        · rw [hext] at h
          simp [Option.isNone] at h
  · exact checkJobStatus_still now (ProbeResult.response true JVal.jnull) j rfl

theorem c10_witness :
    checkJobStatus 3 ProbeResult.fetchError (freshJob 0 "job-1" "c-1" "u-1")
      = ({ freshJob 0 "job-1" "c-1" "u-1" with pollCount := 1 }, false) :=
  (c10_amended_transient_frame 3 ProbeResult.fetchError
    (freshJob 0 "job-1" "c-1" "u-1")).1 rfl

end JobTracker
